import Mathlib

/-!
Verification development for the Emotropy emotion-to-force simulation engine.

The definitions below are a shallow embedding of the JavaScript sources:
  * `utils/emotionDetector.js` (the classifier `detectEmotion`),
  * `main.js` (particle pool `spawnBlend`, attractor system),
  * `particles/Particle.js` (the `Particle` entity and its behaviour forces).

Numbers that JavaScript represents as IEEE doubles are modelled as exact
rationals (`ℚ`) where the code only performs field operations, and as real
numbers (`ℝ`) where `Math.sqrt` appears.  Strings are modelled as Lean
`String`s; the ASCII tokeniser (`/\w+/g` after `toLowerCase`) is implemented
directly on the character list.
-/

set_option maxRecDepth 1000000

attribute [local semireducible] Rat.mul Rat.add Rat.sub Rat.inv Rat.ofScientific

namespace Emotropy

/-- The 15 emotion categories, in the insertion order of the JS
`aggregatedScores` object (which is also the order of the `LEXICONS` object). -/
inductive Emotion
  | joy | calm | anger | fear | anxiety
  | sadness | shame | gratitude | courage
  | hopeful | disconnected | stress
  | powerless | unsettled | tender
deriving DecidableEq

/-- `Object.keys(aggregatedScores)` / `Object.values` iteration order. -/
def keysOrder : List Emotion :=
  [.joy, .calm, .anger, .fear, .anxiety, .sadness, .shame, .gratitude,
   .courage, .hopeful, .disconnected, .stress, .powerless, .unsettled, .tender]

/-- ASCII apostrophe, used by the contraction entries of `NEGATION_WORDS`
(written via `Char.ofNat` to keep the file free of quote characters). -/
def apos : Char := Char.ofNat 39

/-- Builds a contraction such as the JS source's negation entries that
contain an apostrophe: `contraction "can" "t"` is the 5-character string
can-apostrophe-t. -/
def contraction (a b : String) : String := a ++ apos.toString ++ b

/-- `NEGATION_WORDS` from emotionDetector.js (a JS `Set`; the duplicate
`without` entry of the source literal is kept). -/
def NEGATION_WORDS : List String :=
  ["not", "no", "never", "neither", "nor", "without",
   contraction "can" "t", "cannot", contraction "couldn" "t",
   contraction "won" "t", contraction "don" "t", contraction "didn" "t",
   contraction "isn" "t", contraction "wasn" "t", "hardly", "barely",
   "nothing", "none", "lack", "lacking", "without", "unable", "refuse"]

/-- `INTENSIFIERS` from emotionDetector.js. -/
def INTENSIFIERS : List String :=
  ["very", "so", "really", "extremely", "incredibly", "deeply",
   "profoundly", "overwhelmingly", "utterly", "absolutely", "completely",
   "totally", "truly", "beyond", "intensely", "hugely", "especially",
   "particularly", "terribly", "awfully", "dreadfully", "insanely",
   "ridiculously", "super", "quite", "rather", "fairly"]

/-- `TRANSITION_WORDS` from emotionDetector.js. -/
def TRANSITION_WORDS : List String :=
  ["but", "however", "yet", "nevertheless", "though", "nonetheless",
   "alternatively", "instead", "otherwise", "even though"]

/-- The per-emotion keyword→weight tables (`LEXICONS`), in source order.
Duplicate keys of the JS object literals are kept; `List.lookup` returns the
first occurrence, and every duplicated key carries the same weight, so the
semantics agree with JS's last-key-wins objects. -/
def LEXICONS : List (Emotion × List (String × ℚ)) :=
  [ (.joy,
     [("happy", 2), ("happiness", 2), ("joy", 3), ("joyful", 3), ("joyous", 2),
      ("bliss", 3), ("blissful", 3), ("ecstatic", 3), ("elated", 3), ("euphoric", 3),
      ("excited", 2), ("excitement", 2), ("thrilled", 2), ("exhilarated", 2.5),
      ("delighted", 2.5), ("delight", 2), ("wonderful", 2), ("amazing", 2),
      ("fantastic", 2), ("great", 1.5), ("awesome", 2), ("incredible", 2),
      ("magnificent", 2), ("radiant", 2.5), ("vibrant", 2.5), ("alive", 2),
      ("aliveness", 2.5), ("energized", 2.5), ("invigorated", 2.5), ("lively", 2),
      ("enthusiastic", 2.5), ("enthusiasm", 2), ("eager", 2), ("eagerness", 2),
      ("passionate", 2), ("passion", 2), ("inspired", 2), ("inspiration", 1.5),
      ("refreshed", 2), ("rejuvenated", 2), ("renewed", 2), ("revived", 2),
      ("satisfied", 1.5), ("satisfaction", 1.5), ("playful", 2), ("playfulness", 2),
      ("fun", 1.5), ("laugh", 1.5), ("laughing", 1.5), ("smile", 1.5), ("smiling", 1.5),
      ("celebrate", 2), ("celebration", 2), ("win", 1.5), ("winning", 1.5),
      ("free", 1.5), ("freedom", 2), ("liberated", 2), ("enchanted", 2.5),
      ("amazed", 2.5), ("awe", 2.5), ("wonder", 2), ("awed", 2.5),
      ("engaged", 1.5), ("engagement", 1.5), ("stimulated", 1.5), ("love", 2),
      ("good", 1), ("nice", 1), ("yay", 2), ("wow", 1.5), ("yeah", 1)]),
    (.calm,
     [("calm", 2.5), ("calming", 2), ("calmed", 2), ("serene", 3), ("serenity", 3),
      ("peaceful", 2.5), ("peace", 2), ("tranquil", 3), ("tranquility", 3),
      ("relaxed", 2.5), ("relaxing", 2), ("relax", 2), ("still", 1.5), ("stillness", 2),
      ("present", 1.5), ("grounded", 2.5), ("centered", 2.5), ("centred", 2.5),
      ("breath", 1.5), ("breathing", 1.5), ("meditate", 2), ("meditation", 2),
      ("mindful", 2), ("quiet", 1.5), ("gentle", 1.5), ("soft", 1),
      ("content", 2), ("contented", 2), ("contentment", 2), ("ease", 2), ("steady", 1.5),
      ("patient", 2), ("patience", 2), ("accepting", 2), ("acceptance", 2),
      ("open", 1.5), ("openness", 1.5), ("trusting", 1.5), ("trust", 1.5),
      ("fulfilled", 2), ("fulfillment", 2), ("at_peace", 2.5)]),
    (.anger,
     [("angry", 2), ("anger", 2), ("furious", 3), ("rage", 3), ("enraged", 3),
      ("livid", 3), ("irate", 2.5), ("outraged", 2.5), ("incensed", 2.5),
      ("frustrated", 1.5), ("frustrating", 1.5), ("frustration", 1.5),
      ("annoyed", 1.5), ("annoying", 1.5), ("irritated", 1.5), ("irritating", 1.5),
      ("mad", 1.5), ("infuriated", 2), ("bitter", 1.5), ("resentful", 1.5), ("resentment", 2),
      ("agitated", 2), ("aggravated", 2), ("contempt", 2.5), ("cynical", 1.5),
      ("disdain", 2), ("disgruntled", 2), ("disturbed", 1.5), ("edgy", 1.5),
      ("exasperated", 2), ("grouchy", 1.5), ("hostile", 2.5), ("impatient", 1.5),
      ("moody", 1.5), ("on edge", 1.5), ("pissed", 2.5), ("vindictive", 2.5),
      ("hate", 2.5), ("hating", 2.5), ("hatred", 2.5), ("detest", 2.5), ("despise", 2.5),
      ("violent", 2), ("scream", 1.5), ("yell", 1.5), ("shout", 1.5), ("slam", 1.5),
      ("damn", 1.5), ("hell", 1), ("upset", 1.5)]),
    (.fear,
     [("afraid", 2.5), ("fear", 2), ("fearful", 2.5), ("scared", 2.5), ("terrified", 3),
      ("terror", 3), ("horrified", 3), ("horror", 2.5), ("petrified", 3),
      ("dread", 2.5), ("dreading", 2.5), ("helpless", 2.5), ("paralyzed", 3),
      ("paralysed", 3), ("frozen", 2), ("trapped", 1.5), ("powerless", 1.5),
      ("threatened", 2), ("vulnerable", 1.5), ("unsafe", 2), ("danger", 1.5),
      ("nightmare", 2), ("phobia", 2), ("frightened", 2.5), ("apprehensive", 2),
      ("hesitant", 1.5), ("nervous", 2), ("nervousness", 2), ("panic", 3),
      ("panicking", 3), ("panicked", 3), ("anxious", 2), ("worried", 2), ("worry", 2),
      ("worrying", 2), ("fragile", 1.5), ("sensitive", 1.5)]),
    (.anxiety,
     [("anxious", 2.5), ("anxiety", 2.5), ("stressed", 2.5), ("stress", 2),
      ("overwhelmed", 2.5), ("overwhelm", 2.5), ("restless", 2), ("tense", 2),
      ("tension", 2), ("uptight", 1.5), ("overthinking", 2.5), ("overthink", 2),
      ("spiraling", 2.5), ("spiral", 2), ("unsettled", 2), ("uncertain", 1.5),
      ("unsure", 1.5), ("doubt", 1.5), ("doubtful", 1.5), ("confused", 1.5),
      ("shaking", 1.5), ("trembling", 1.5), ("racing", 1), ("breathless", 1.5),
      ("shaking", 1.5), ("trembling", 1.5), ("racing", 1), ("breathless", 1.5)]),
    (.sadness,
     [("sad", 2), ("sadness", 2), ("unhappy", 1.5), ("sorrow", 2), ("sorrowful", 2),
      ("grief", 2.5), ("grieving", 2.5), ("depressed", 2.5), ("depression", 2.5),
      ("heartbroken", 3), ("heartbreak", 3), ("devastated", 3), ("despondent", 2.5),
      ("despair", 3), ("anguish", 3), ("forlorn", 2.5), ("gloomy", 1.5),
      ("discouraged", 2), ("disappointed", 2), ("disappointment", 2),
      ("lonely", 2.5), ("loneliness", 2.5), ("alone", 2), ("isolation", 2),
      ("longing", 2), ("yearning", 2), ("melancholy", 2), ("melancholic", 2),
      ("cry", 2), ("crying", 2), ("tears", 1.5), ("teary", 2), ("sobbing", 2.5), ("weep", 2),
      ("hopeless", 2.5), ("worthless", 1.5), ("helpless", 1.5), ("empty", 1.5),
      ("numb", 1.5), ("meaningless", 2), ("pointless", 2), ("weary", 1.5),
      ("broken", 1.5), ("hurt", 1.5), ("tired", 1), ("exhausted", 1.5),
      ("broken", 1.5), ("hurt", 1.5), ("tired", 1), ("exhausted", 1.5)]),
    (.shame,
     [("ashamed", 3), ("shame", 3), ("embarrassed", 2.5), ("embarrassment", 2.5),
      ("mortified", 3), ("humiliated", 3), ("humiliation", 3),
      ("self_conscious", 2.5), ("inhibited", 2), ("useless", 2), ("weak", 1.5),
      ("worthless", 2.5), ("guilty", 2.5), ("guilt", 2.5), ("regret", 2.5),
      ("regretting", 2), ("remorseful", 3), ("remorse", 3), ("sorry", 2),
      ("disgrace", 2.5), ("disgraced", 2.5), ("exposed", 2), ("judged", 2),
      ("failure", 2), ("failed", 1.5), ("pathetic", 2), ("stupid", 1.5),
      ("failure", 2), ("failed", 1.5), ("pathetic", 2), ("stupid", 1.5)]),
    (.gratitude,
     [("grateful", 3), ("gratitude", 3), ("thankful", 2.5), ("thank", 1.5),
      ("thanks", 1.5), ("appreciate", 2.5), ("appreciation", 2.5), ("blessed", 2.5),
      ("blessing", 2), ("touched", 2), ("moved", 1.5), ("humbled", 2),
      ("honored", 2), ("honoured", 2), ("fortunate", 2), ("lucky", 1.5),
      ("cherish", 2), ("cherishing", 2), ("abundance", 1.5), ("gift", 1.5),
      ("warmth", 1.5), ("warm", 1), ("tender", 1.5), ("grace", 2.5),
      ("appreciative", 2.5), ("appreciative", 2.5)]),
    (.courage,
     [("brave", 2.5), ("bravery", 2.5), ("courageous", 3), ("courage", 3),
      ("bold", 2), ("confident", 2.5), ("confidence", 2.5), ("daring", 2.5),
      ("determined", 2.5), ("determination", 2.5), ("adventurous", 2),
      ("adventure", 1.5), ("capable", 2), ("strong", 2), ("strength", 2),
      ("powerful", 2.5), ("power", 2), ("proud", 2), ("pride", 2),
      ("worthy", 2), ("valiant", 2.5), ("fearless", 2.5), ("resilient", 2),
      ("resilience", 2), ("grounded", 1.5), ("free", 1.5), ("driven", 2),
      ("unstoppable", 3), ("empowered", 2.5), ("rising", 1.5),
      ("unstoppable", 3), ("empowered", 2.5), ("rising", 1.5)]),
    (.hopeful,
     [("hopeful", 3), ("hope", 2.5), ("hoping", 2), ("optimistic", 2.5),
      ("optimism", 2.5), ("encouraged", 2.5), ("expectant", 2), ("expectation", 2),
      ("looking_forward", 2.5), ("anticipate", 2), ("anticipation", 2),
      ("possibility", 1.5), ("believe", 1.5), ("believing", 1.5),
      ("faith", 1.5), ("trust", 1), ("bright", 1.5), ("potential", 1.5),
      ("faith", 1.5), ("trust", 1), ("bright", 1.5), ("potential", 1.5)]),
    (.disconnected,
     [("numb", 2.5), ("empty", 2), ("hollow", 2), ("blank", 1.5), ("detached", 2.5),
      ("disconnected", 3), ("dissociated", 2.5), ("withdrawn", 2.5), ("distant", 2),
      ("aloof", 2), ("isolated", 2.5), ("isolation", 2.5), ("alone", 1.5),
      ("bored", 2), ("boredom", 2), ("listless", 2.5), ("lethargic", 2.5),
      ("indifferent", 2.5), ("apathetic", 2.5), ("apathy", 2.5), ("flat", 2),
      ("removed", 2.5), ("shut", 1.5), ("shutdown", 2.5), ("closed", 1.5),
      ("uneasy", 1.5), ("resistant", 1.5), ("nothing", 1), ("invisible", 2),
      ("uneasy", 1.5), ("resistant", 1.5), ("nothing", 1), ("invisible", 2)]),
    (.stress,
     [("stressed", 2.5), ("stress", 2), ("exhausted", 2.5), ("burnout", 3),
      ("burned out", 3), ("burnt_out", 3), ("depleted", 2.5), ("drained", 2.5),
      ("frazzled", 2.5), ("frantic", 2), ("overwhelmed", 2), ("overloaded", 2.5),
      ("tense", 1.5), ("cranky", 1.5), ("edgy", 1.5), ("restless", 1.5),
      ("rattled", 2), ("shaken", 2), ("tight", 1.5), ("weary", 2), ("worn", 1.5),
      ("worn out", 2.5), ("rundown", 2), ("run_down", 2), ("heavy", 1.5),
      ("pressure", 2), ("pressured", 2), ("strained", 2),
      ("pressure", 2), ("pressured", 2), ("strained", 2)]),
    (.powerless,
     [("powerless", 3), ("helpless", 2.5), ("hopeless", 2), ("impotent", 2.5),
      ("incapable", 2.5), ("inadequate", 2), ("resigned", 2.5), ("resignation", 2.5),
      ("victim", 2.5), ("stuck", 2), ("trapped", 2.5), ("imprisoned", 2.5),
      ("no_choice", 2), ("nowhere", 1.5), ("can_not", 1.5), ("unable", 2),
      ("defeated", 2.5), ("beaten", 2), ("crushed", 2), ("broken", 2), ("failing", 1.5),
      ("defeated", 2.5), ("beaten", 2), ("crushed", 2), ("broken", 2), ("failing", 1.5)]),
    (.unsettled,
     [("unsettled", 2.5), ("doubt", 2.5), ("doubtful", 2), ("uncertain", 2),
      ("uncertainty", 2), ("confused", 2), ("perplexed", 2.5), ("questioning", 2),
      ("skeptical", 2.5), ("suspicious", 2.5), ("concerned", 1.5), ("dissatisfied", 2),
      ("hesitant", 2), ("reluctant", 2), ("ungrounded", 2.5), ("grouchy", 1.5),
      ("inhibited", 1.5), ("rejecting", 1.5), ("shocked", 2), ("disturbed", 1.5),
      ("inhibited", 1.5), ("rejecting", 1.5), ("shocked", 2), ("disturbed", 1.5)]),
    (.tender,
     [("loving", 2.5), ("love", 2), ("affectionate", 2.5), ("affection", 2.5),
      ("caring", 2.5), ("care", 2), ("compassion", 2.5), ("compassionate", 2.5),
      ("empathy", 2), ("empathetic", 2), ("warm", 2), ("warmth", 2),
      ("tender", 2.5), ("tenderness", 2.5), ("nurturing", 2), ("nurture", 2),
      ("soft", 1.5), ("gentle", 1.5), ("kind", 2), ("kindness", 2),
      ("connected", 2.5), ("connection", 2.5), ("intimate", 2), ("intimacy", 2),
      ("held", 1.5), ("safe", 2), ("secure", 1.5), ("reflective", 1.5),
      ("self_loving", 2.5)]) ]

/-- `BODILY_LEXICON` from emotionDetector.js. -/
def BODILY_LEXICON : List (String × ℚ) :=
  [("hot", 1.5), ("burning", 1.5), ("heat", 1.2), ("flushed", 1.3), ("sweating", 1.3),
   ("cold", 1.2), ("chilled", 1.2), ("shivery", 1.5), ("shiver", 1.5), ("frozen", 1.3),
   ("tight", 1.3), ("tightness", 1.3), ("heavy", 1.4), ("heaviness", 1.4),
   ("numb", 1.3), ("tingling", 1.5), ("buzzing", 1.5), ("vibrating", 1.5),
   ("tender", 1.2), ("raw", 1.3), ("aching", 1.3), ("ache", 1.3), ("pain", 1.4),
   ("light", 1.2), ("weightless", 1.4), ("floating", 1.3), ("dizzy", 1.4),
   ("electric", 1.6), ("charged", 1.5), ("pulsing", 1.5), ("throbbing", 1.4),
   ("breathless", 1.4), ("racing_heart", 1.5), ("trembling", 1.3), ("shaking", 1.3),
   ("pressure", 1.3), ("sinking", 1.4), ("lifting", 1.3), ("expansion", 1.3)]

/-- `BLEND_THRESHOLD` from emotionDetector.js. -/
def BLEND_THRESHOLD : ℚ := 0.16

/-- A character matched by the JS regex class `\w` — `[A-Za-z0-9_]`. -/
def isWordChar (c : Char) : Bool := c.isAlphanum || c = '_'

/-- Accumulates maximal runs of word characters into tokens
(the behaviour of `text.match(/\w+/g) || []`). -/
def wordsAux : List Char → List Char → List String
  | [], acc => if acc.isEmpty then [] else [String.mk acc.reverse]
  | c :: cs, acc =>
    if isWordChar c then wordsAux cs (c :: acc)
    else if acc.isEmpty then wordsAux cs []
    else String.mk acc.reverse :: wordsAux cs []

/-- `tokenise` from emotionDetector.js:
`text.toLowerCase().match(/\w+/g) || []` (ASCII case-folding). -/
def tokenise (s : String) : List String := wordsAux (s.data.map Char.toLower) []

/-- Sentence-terminal punctuation of the split regex `(?<=[.!?])\s+`. -/
def isTerminator (c : Char) : Bool := c = '.' || c = '!' || c = '?'

/-- True when the list starts with a whitespace character. -/
def hasWsNext : List Char → Bool
  | c :: _ => c.isWhitespace
  | [] => false

/-- `text.trim().length === 0`: the string is empty or whitespace-only. -/
def isBlank (s : String) : Bool := s.data.all Char.isWhitespace

/-- Splits after each terminator that is immediately followed by whitespace,
consuming the maximal whitespace run — the behaviour of
`text.split(/(?<=[.!?])\s+/)`.  The first argument is true while the
separator's whitespace run (`\s+`) is being consumed. -/
def splitSentencesAux : Bool → List Char → List Char → List String
  | _, [], acc => if acc.isEmpty then [] else [String.mk acc.reverse]
  | skipWs, c :: rest, acc =>
    if skipWs && c.isWhitespace then
      splitSentencesAux true rest acc
    else if isTerminator c && hasWsNext rest then
      String.mk (c :: acc).reverse :: splitSentencesAux true rest []
    else
      splitSentencesAux false rest (c :: acc)

/-- `splitToSentences` from emotionDetector.js:
split on `(?<=[.!?])\s+` and drop blank fragments. -/
def splitToSentences (s : String) : List String :=
  (splitSentencesAux false s.data []).filter (fun t => !(isBlank t))

/-- Per-emotion score table (`sentenceScores` / `aggregatedScores`),
modelled as a total function on the fixed key set. -/
def Scores : Type := Emotion → ℚ

def zeroScores : Scores := fun _ => 0

/-- The mutable per-sentence state of the token loop. -/
structure SentState where
  scores : Scores
  bodilySum : ℚ
  bodilyCount : ℕ
  containsTransition : Bool

/-- One iteration of the lexicon loop
`for (const [emotion, lexicon] of Object.entries(LEXICONS))`:
if the token is a key, add `tableWeight × intensityMult` to the matched
emotion, or — when negated — `weight × 0.2` to every other emotion. -/
def lexiconStep (token : String) (isNegated : Bool) (mult : ℚ)
    (sc : Scores) (el : Emotion × List (String × ℚ)) : Scores :=
  match List.lookup token el.2 with
  | some w =>
    let weight := w * mult
    if isNegated then
      fun e => if e = el.1 then sc e else sc e + weight * 0.2
    else
      fun e => if e = el.1 then sc e + weight else sc e
  | none => sc

/-- The emotion-scoring part of one token-loop iteration: negation and
intensifier flags from the two preceding tokens, then the loop over all
lexicons. -/
def tokenScores (sc : Scores) (p1 p2 token : String) : Scores :=
  let isNegated := NEGATION_WORDS.contains p1 || NEGATION_WORDS.contains p2
  let isIntensified := INTENSIFIERS.contains p1 || INTENSIFIERS.contains p2
  let mult : ℚ := if isIntensified then 1.6 else 1.0
  LEXICONS.foldl (lexiconStep token isNegated mult) sc

/-- The body of the token loop of `detectEmotion`: `p1`/`p2` are
`tokens[i-1]` and `tokens[i-2]` (empty when out of range). -/
def procToken (st : SentState) (p1 p2 token : String) : SentState :=
  let ct := if TRANSITION_WORDS.contains token then true else st.containsTransition
  let scores := tokenScores st.scores p1 p2 token
  match List.lookup token BODILY_LEXICON with
  | some b =>
    { scores := scores, bodilySum := st.bodilySum + b,
      bodilyCount := st.bodilyCount + 1, containsTransition := ct }
  | none =>
    { scores := scores, bodilySum := st.bodilySum,
      bodilyCount := st.bodilyCount, containsTransition := ct }

/-- Runs the token loop, threading the two previous tokens. -/
def procTokens (st : SentState) (p2 p1 : String) : List String → SentState
  | [] => st
  | t :: ts => procTokens (procToken st p1 p2 t) p1 t ts

/-- Scores one sentence from a zeroed template (`sentenceScores`). -/
def scoreSentence (sentence : String) : SentState :=
  procTokens ⟨zeroScores, 0, 0, false⟩ "" "" (tokenise sentence)

/-- The document-level accumulators of `detectEmotion`. -/
structure DocState where
  aggregated : Scores
  totalBodilySum : ℚ
  totalBodilyCount : ℚ
  totalWeight : ℚ

/-- `positionWeight = 1.0 + (index / (sentences.length || 1)) * 1.0`. -/
def positionWeight (index n : ℕ) : ℚ :=
  1 + ((index : ℚ) / (if n = 0 then 1 else (n : ℚ))) * 1

/-- One iteration of `sentences.forEach((sentence, index) => …)`. -/
def procSentence (n : ℕ) (ds : DocState) (index : ℕ) (sentence : String) : DocState :=
  let st := scoreSentence sentence
  let transitionBoost : ℚ := if st.containsTransition then 1.3 else 1.0
  let fw := positionWeight index n * transitionBoost
  { aggregated := fun e => ds.aggregated e + st.scores e * fw
    totalBodilySum :=
      if 0 < st.bodilyCount then ds.totalBodilySum + st.bodilySum / (st.bodilyCount : ℚ) * fw
      else ds.totalBodilySum
    totalBodilyCount :=
      if 0 < st.bodilyCount then ds.totalBodilyCount + fw else ds.totalBodilyCount
    totalWeight := ds.totalWeight + fw }

/-- Folds `procSentence` over the sentence list with its index. -/
def procSentences (n : ℕ) (ds : DocState) (index : ℕ) : List String → DocState
  | [] => ds
  | s :: ss => procSentences n (procSentence n ds index s) (index + 1) ss

/-- The return shape of `detectEmotion` (the idle branch's empty `scores`
object is modelled as the zero table). -/
structure DetectResult where
  emotion : Emotion
  confidence : ℚ
  scores : Scores
  blend : List (Emotion × ℚ)
  bodily : ℚ
  total : ℚ

/-- Descending-by-weight comparison used by
`.sort((a, b) => b.weight - a.weight)`; a stable sort with this relation
reproduces the JS (stable) sort exactly. -/
def blendGE (a b : Emotion × ℚ) : Prop := b.2 ≤ a.2

instance : DecidableRel blendGE := fun a b => inferInstanceAs (Decidable (b.2 ≤ a.2))

instance : IsTotal (Emotion × ℚ) blendGE := ⟨fun a b => le_total b.2 a.2⟩

instance : IsTrans (Emotion × ℚ) blendGE := ⟨fun _ _ _ h1 h2 => le_trans h2 h1⟩

/-- Stable descending sort of the normalised entries. -/
def sortDesc (l : List (Emotion × ℚ)) : List (Emotion × ℚ) := l.insertionSort blendGE

/-- The document accumulators after the `sentences.forEach` loop
(`aggregatedScores`, bodily sums, `totalWeight`). -/
def docOf (text : String) : DocState :=
  let sentences := splitToSentences text
  procSentences sentences.length ⟨zeroScores, 0, 0, 0⟩ 0 sentences

/-- The bodily scalar: `min(2.2, 0.8 + (totalBodilySum / totalBodilyCount) * 0.7)`
when any bodily token matched, else `1`. -/
def bodilyOf (text : String) : ℚ :=
  let ds := docOf text
  if 0 < ds.totalBodilyCount then
    min 2.2 (0.8 + ds.totalBodilySum / ds.totalBodilyCount * 0.7)
  else 1

/-- `Object.values(aggregatedScores).reduce((s, v) => s + v, 0)`. -/
def totalOf (text : String) : ℚ := (keysOrder.map (docOf text).aggregated).sum

/-- The `normalised` list: each emotion's share of the total, sorted
descending by weight (stable, as JS `Array.prototype.sort`). -/
def normalisedOf (text : String) : List (Emotion × ℚ) :=
  sortDesc (keysOrder.map (fun e => (e, (docOf text).aggregated e / totalOf text)))

/-- `normalised[0]`, the dominant entry (`headD` with an unreachable
default: the list always has 15 entries). -/
def topOf (text : String) : Emotion × ℚ := (normalisedOf text).headD (.joy, 0)

/-- `normalised.filter(e => e.weight >= BLEND_THRESHOLD)`. -/
def aboveOf (text : String) : List (Emotion × ℚ) :=
  (normalisedOf text).filter (fun e => decide (BLEND_THRESHOLD ≤ e.2))

/-- `above.reduce((s, e) => s + e.weight, 0)`. -/
def blendTotalOf (text : String) : ℚ := ((aboveOf text).map (fun e => e.2)).sum

/-- The returned blend: the kept entries renormalised by `blendTotal`,
with the `if (blend.length === 0) blend.push({emotion: top.emotion, weight: 1})`
fallback guard. -/
def blendOf (text : String) : List (Emotion × ℚ) :=
  let blend0 := (aboveOf text).map (fun e => (e.1, e.2 / blendTotalOf text))
  if blend0 = [] then [((topOf text).1, 1)] else blend0

/-- `detectEmotion` from emotionDetector.js, assembled from the named
intermediate values above (each of which is one `let` of the source). -/
def detectEmotion (text : String) : DetectResult :=
  if isBlank text then
    { emotion := .joy, confidence := 0.5, scores := zeroScores,
      blend := [(.joy, 1)], bodily := 1, total := 0 }
  else if totalOf text = 0 then
    { emotion := .joy, confidence := 0, scores := (docOf text).aggregated,
      blend := [], bodily := bodilyOf text, total := 0 }
  else
    { emotion := (topOf text).1, confidence := (topOf text).2,
      scores := (docOf text).aggregated, blend := blendOf text,
      bodily := bodilyOf text, total := totalOf text }

/-- Raw (pre-blend) normalised share of an emotion: `scores[e] / total`. -/
def rawShare (r : DetectResult) (e : Emotion) : ℚ := r.scores e / r.total

/-- Weight of an emotion in the returned blend (0 when absent). -/
def blendWeight (r : DetectResult) (e : Emotion) : ℚ :=
  ((r.blend.lookup e).getD 0)

/-! ## Simulation world: particle pool and capacity (main.js)

For the capacity claims only the identity of the pool entries matters, so the
live population is modelled as the list of spawned emotion tags (strings, as
in the JS blend entries); `particles.splice(0, k)` is `List.drop k` and
`particles.push(…)` is appending. -/

def MAX_PARTICLES : ℕ := 700

/-- `Math.max(1, Math.round(totalCount * weight))`
(`Math.round x = ⌊x + 1/2⌋` for the non-negative weights involved). -/
def spawnCount (totalCount : ℕ) (weight : ℚ) : ℕ :=
  max 1 (Rat.floor ((totalCount : ℚ) * weight + 1/2)).toNat

/-- The batch of particles pushed by one `spawnBlend` call: for each blend
entry, `count = max(1, round(totalCount × weight))` particles. -/
def spawnInserted (blend : List (String × ℚ)) (totalCount : ℕ) : List String :=
  blend.flatMap (fun ew => List.replicate (spawnCount totalCount ew.2) ew.1)

/-- `spawnBlend` from main.js: evict
`particles.length + totalCount - MAX_PARTICLES` oldest-inserted particles
when `particles.length + totalCount > MAX_PARTICLES`, then push the batch. -/
def spawnBlend (particles : List String) (blend : List (String × ℚ))
    (totalCount : ℕ) : List String :=
  let particles :=
    if MAX_PARTICLES < particles.length + totalCount then
      particles.drop (particles.length + totalCount - MAX_PARTICLES)
    else particles
  particles ++ spawnInserted blend totalCount

/-! ## Attractor / repeller system (main.js) -/

def MAX_ATTRACTORS : ℕ := 3
def ATTRACTOR_LIFE : ℕ := 600
def ATTRACTOR_R : ℚ := 160
def ATTRACTOR_STR : ℚ := 0.22

inductive AKind | attract | repel
deriving DecidableEq

/-- A placed field point.  `pid` is a ghost identifier added for the
specification (to track one point across evictions and ticks); the JS record
carries `{x, y, type, radius, strength, age}`. -/
structure APoint where
  pid : ℕ
  x : ℚ
  y : ℚ
  kind : AKind
  radius : ℚ
  strength : ℚ
  age : ℕ
deriving DecidableEq

/-- `placeAttractor(x, y, type)` from main.js: if the active set is at
`MAX_ATTRACTORS`, `shift()` the oldest point, then `push` the new point with
`age: 0`. -/
def placeAttractor (s : List APoint) (pid : ℕ) (x y : ℚ) (kind : AKind) :
    List APoint :=
  let s := if MAX_ATTRACTORS ≤ s.length then s.drop 1 else s
  s ++ [{ pid := pid, x := x, y := y, kind := kind,
          radius := ATTRACTOR_R, strength := ATTRACTOR_STR, age := 0 }]

/-- The aging/expiry half of `applyAttractors` from main.js: every point's
age is incremented (`pt.age++`), then
`attractors = attractors.filter(pt => pt.age < ATTRACTOR_LIFE)`.
(The force half of `applyAttractors` is modelled separately by
`attractorForce` below; it does not touch the attractor list.) -/
def tickAttractors (s : List APoint) : List APoint :=
  (s.map (fun p => { p with age := p.age + 1 })).filter
    (fun p => p.age < ATTRACTOR_LIFE)

/-! ## Particle entity (particles/Particle.js)

Positions, velocities and forces are modelled over `ℝ` (the code computes
with `Math.sqrt` on doubles).  The constructor's random draws are irrelevant
to the claims below, so particles are given by their field values. -/

structure Particle where
  x : ℝ
  y : ℝ
  vx : ℝ
  vy : ℝ
  ax : ℝ
  ay : ℝ
  color : String
  glowColor : String
  size : ℝ
  friction : ℝ
  behaviour : String
  speed : ℝ
  lifespan : ℝ
  age : ℝ
  alive : Bool
  bodily : ℝ
  trail : List (ℝ × ℝ)
  maxTrail : ℕ

/-- `Particle.applyForce(fx, fy)`: `this.ax += fx; this.ay += fy;` —
the source has no guard of any kind (in particular no check of `alive`). -/
def applyForce (p : Particle) (fx fy : ℝ) : Particle :=
  { p with ax := p.ax + fx, ay := p.ay + fy }

/-! ### Behaviour force models and the `|| 1` distance guard -/

/-- `Math.sqrt(dx*dx + dy*dy) || 1`: JS `||` replaces a falsy left operand
(here: `0`; `NaN` cannot arise since the radicand is non-negative) with `1`. -/
noncomputable def distGuard (dx dy : ℝ) : ℝ :=
  let d := Real.sqrt (dx * dx + dy * dy)
  if d = 0 then 1 else d

/-- joy: outward radial push, stronger horizontally. -/
noncomputable def joyForce (p : Particle) (cx cy : ℝ) : ℝ × ℝ :=
  let dx := p.x - cx
  let dy := p.y - cy
  let dist := distGuard dx dy
  (dx / dist * 0.08, dy / dist * 0.06)

/-- sadness: downward gravity plus weak inward pull. -/
noncomputable def sadnessForce (p : Particle) (cx cy : ℝ) : ℝ × ℝ :=
  let dx := cx - p.x
  let dy := cy - p.y
  let dist := distGuard dx dy
  (dx / dist * 0.04, 0.12 + dy / dist * 0.04)

/-- calm: ultra-soft centring pull. -/
noncomputable def calmForce (p : Particle) (cx cy : ℝ) : ℝ × ℝ :=
  let dx := cx - p.x
  let dy := cy - p.y
  let dist := distGuard dx dy
  (dx / dist * 0.008, dy / dist * 0.008)

/-- curiosity: clockwise tangential orbit plus soft inward pull. -/
noncomputable def curiosityForce (p : Particle) (cx cy : ℝ) : ℝ × ℝ :=
  let dx := p.x - cx
  let dy := p.y - cy
  let dist := distGuard dx dy
  (dy / dist * 0.18 + (-dx / dist) * 0.04,
   (-dx / dist) * 0.18 + (-dy / dist) * 0.04)

/-- gratitude: gentle outward push plus upward drift. -/
noncomputable def gratitudeForce (p : Particle) (cx cy : ℝ) : ℝ × ℝ :=
  let dx := p.x - cx
  let dy := p.y - cy
  let dist := distGuard dx dy
  (dx / dist * 0.06, dy / dist * 0.05 - 0.02)

/-- shame: strong inward pull plus counter-rotating curl. -/
noncomputable def shameForce (p : Particle) (cx cy : ℝ) : ℝ × ℝ :=
  let dx := cx - p.x
  let dy := cy - p.y
  let dist := distGuard dx dy
  (dx / dist * 0.14 + (-dy / dist) * 0.08,
   dy / dist * 0.12 + dx / dist * 0.08)

/-- courage: decaying upward bias plus outward radial drift. -/
noncomputable def courageForce (p : Particle) (cx cy : ℝ) : ℝ × ℝ :=
  let upwardBias := max 0 (1 - p.age / 80)
  let dx := p.x - cx
  let dy := p.y - cy
  let dist := distGuard dx dy
  (dx / dist * 0.04, -(0.2) * upwardBias + dy / dist * 0.03)

/-- disconnected: very weak inward pull (the late-life sink adds no division). -/
noncomputable def disconnectedForce (p : Particle) (cx cy : ℝ) : ℝ × ℝ :=
  let dx := cx - p.x
  let dy := cy - p.y
  let dist := distGuard dx dy
  (dx / dist * 0.015,
   dy / dist * 0.015 + (if p.lifespan * 0.4 < p.age then 0.02 else 0))

/-- powerless: strong gravity plus slight inward drag. -/
noncomputable def powerlessForce (p : Particle) (cx cy : ℝ) : ℝ × ℝ :=
  let dx := cx - p.x
  let dy := cy - p.y
  let dist := distGuard dx dy
  (dx / dist * 0.02, 0.2 + dy / dist * 0.02)

/-- tender: slow outward drift plus slow clockwise orbit. -/
noncomputable def tenderForce (p : Particle) (cx cy : ℝ) : ℝ × ℝ :=
  let dx := p.x - cx
  let dy := p.y - cy
  let dist := distGuard dx dy
  (dx / dist * 0.03 + dy / dist * 0.05,
   dy / dist * 0.025 + (-dx / dist) * 0.045)

/-- The force one field point applies to one particle inside its radius
(the per-particle body of `applyAttractors` from main.js). -/
noncomputable def attractorForce (pt : APoint) (px py : ℝ) : ℝ × ℝ :=
  let dx := (pt.x : ℝ) - px
  let dy := (pt.y : ℝ) - py
  let dist := distGuard dx dy
  let falloff := 1 - dist / (pt.radius : ℝ)
  let force := (pt.strength : ℝ) * falloff
  match pt.kind with
  | .attract => (dx / dist * force, dy / dist * force)
  | .repel => (-(dx / dist) * force, -(dy / dist) * force)

/-! ### Concrete fixtures used by individual claims -/

/-- Attractor set after three `placeAttractor` calls on an empty world
(ghost ids 0, 1, 2). -/
def threePoints : List APoint :=
  placeAttractor (placeAttractor (placeAttractor [] 0 0 0 .attract) 1 0 0 .attract)
    2 0 0 .attract

/-- `threePoints` after a fourth placement (ghost id 3). -/
def fourPoints : List APoint := placeAttractor threePoints 3 0 0 .attract

/-- A field point one tick away from its 600-tick lifetime. -/
def nearDeathPoint : APoint :=
  { pid := 0, x := 0, y := 0, kind := .attract,
    radius := ATTRACTOR_R, strength := ATTRACTOR_STR, age := 599 }

/-- A freshly placed field point (age 5). -/
def youngPoint : APoint :=
  { pid := 1, x := 0, y := 0, kind := .attract,
    radius := ATTRACTOR_R, strength := ATTRACTOR_STR, age := 5 }

/-- A particle whose age has reached its lifespan: `alive` is false and its
acceleration accumulator is zero. -/
def deadParticle : Particle :=
  { x := 0, y := 0, vx := 0, vy := 0, ax := 0, ay := 0,
    color := "", glowColor := "", size := 1, friction := 0.98,
    behaviour := "joy", speed := 1, lifespan := 10, age := 10,
    alive := false, bodily := 1, trail := [], maxTrail := 8 }

/-! ## Supporting lemmas: non-negativity of the score pipeline -/

theorem lookup_mem {α β : Type} [BEq α] [LawfulBEq α] {a : α} {l : List (α × β)}
    {b : β} (h : List.lookup a l = some b) : (a, b) ∈ l := by
  induction l with
  | nil => simp [List.lookup] at h
  | cons p t ih =>
    obtain ⟨k, v⟩ := p
    rw [List.lookup] at h
    split at h
    · next heq =>
      obtain rfl : v = b := Option.some.inj h
      have hak : a = k := eq_of_beq heq
      subst hak
      exact List.mem_cons_self _ _
    · exact List.mem_cons_of_mem _ (ih h)

/-- Every keyword weight in every lexicon is non-negative. -/
theorem LEXICONS_weights_nonneg : ∀ el ∈ LEXICONS, ∀ kv ∈ el.2, (0 : ℚ) ≤ kv.2 := by
  decide

theorem lexiconStep_nonneg {token : String} {neg : Bool} {mult : ℚ} (hm : 0 ≤ mult)
    {sc : Scores} (hsc : ∀ e, 0 ≤ sc e) {el : Emotion × List (String × ℚ)}
    (hel : ∀ kv ∈ el.2, (0 : ℚ) ≤ kv.2) (e : Emotion) :
    0 ≤ lexiconStep token neg mult sc el e := by
  unfold lexiconStep
  cases hl : List.lookup token el.2 with
  | none => exact hsc e
  | some w =>
    have hw : (0 : ℚ) ≤ w := hel (token, w) (lookup_mem hl)
    have hwm : (0 : ℚ) ≤ w * mult := mul_nonneg hw hm
    cases neg with
    | false =>
      simp only [Bool.false_eq_true, if_false]
      split
      · exact add_nonneg (hsc e) hwm
      · exact hsc e
    | true =>
      simp only [if_true]
      split
      · exact hsc e
      · exact add_nonneg (hsc e) (mul_nonneg hwm (by norm_num))

theorem foldl_lexiconStep_nonneg (token : String) (neg : Bool) (mult : ℚ)
    (hm : 0 ≤ mult) :
    ∀ l : List (Emotion × List (String × ℚ)),
      (∀ el ∈ l, ∀ kv ∈ el.2, (0 : ℚ) ≤ kv.2) →
      ∀ sc : Scores, (∀ e, 0 ≤ sc e) →
      ∀ e, 0 ≤ (l.foldl (lexiconStep token neg mult) sc) e := by
  intro l
  induction l with
  | nil => intro _ sc hsc e; simpa using hsc e
  | cons hd tl ih =>
    intro hl sc hsc e
    rw [List.foldl_cons]
    exact ih (fun el hel kv hkv => hl el (List.mem_cons_of_mem _ hel) kv hkv) _
      (fun e2 => lexiconStep_nonneg hm hsc (hl hd (List.mem_cons_self _ _)) e2) e

theorem tokenScores_nonneg {sc : Scores} (hsc : ∀ e, 0 ≤ sc e) (p1 p2 t : String) :
    ∀ e, 0 ≤ tokenScores sc p1 p2 t e := by
  intro e
  unfold tokenScores
  exact foldl_lexiconStep_nonneg _ _ _ (by split <;> norm_num) LEXICONS
    LEXICONS_weights_nonneg sc hsc e

theorem procToken_scores (st : SentState) (p1 p2 t : String) :
    (procToken st p1 p2 t).scores = tokenScores st.scores p1 p2 t := by
  unfold procToken
  cases List.lookup t BODILY_LEXICON <;> rfl

theorem procTokens_scores_nonneg :
    ∀ (ts : List String) (st : SentState), (∀ e, 0 ≤ st.scores e) →
      ∀ p2 p1 e, 0 ≤ (procTokens st p2 p1 ts).scores e := by
  intro ts
  induction ts with
  | nil => intro st h p2 p1 e; exact h e
  | cons t ts ih =>
    intro st h p2 p1 e
    show 0 ≤ (procTokens (procToken st p1 p2 t) p1 t ts).scores e
    exact ih _ (by rw [procToken_scores]; exact tokenScores_nonneg h p1 p2 t) _ _ e

theorem scoreSentence_nonneg (s : String) : ∀ e, 0 ≤ (scoreSentence s).scores e :=
  procTokens_scores_nonneg (tokenise s) ⟨zeroScores, 0, 0, false⟩
    (fun _ => le_refl 0) "" ""

theorem positionWeight_nonneg (i n : ℕ) : 0 ≤ positionWeight i n := by
  unfold positionWeight
  have h1 : (0 : ℚ) ≤ (i : ℚ) := Nat.cast_nonneg i
  have h2 : (0 : ℚ) < (if n = 0 then 1 else (n : ℚ)) := by
    split
    · norm_num
    · exact_mod_cast Nat.pos_of_ne_zero (by assumption)
  have := div_nonneg h1 h2.le
  nlinarith

theorem procSentence_aggregated_nonneg (n : ℕ) (ds : DocState) (i : ℕ) (s : String)
    (h : ∀ e, 0 ≤ ds.aggregated e) : ∀ e, 0 ≤ (procSentence n ds i s).aggregated e := by
  intro e
  show 0 ≤ ds.aggregated e + (scoreSentence s).scores e *
    (positionWeight i n * (if (scoreSentence s).containsTransition then 1.3 else 1.0))
  refine add_nonneg (h e) (mul_nonneg (scoreSentence_nonneg s e)
    (mul_nonneg (positionWeight_nonneg i n) ?_))
  split <;> norm_num

theorem procSentences_aggregated_nonneg (n : ℕ) :
    ∀ (ss : List String) (ds : DocState) (i : ℕ), (∀ e, 0 ≤ ds.aggregated e) →
      ∀ e, 0 ≤ (procSentences n ds i ss).aggregated e := by
  intro ss
  induction ss with
  | nil => intro ds i h e; exact h e
  | cons s ss ih =>
    intro ds i h e
    exact ih _ _ (procSentence_aggregated_nonneg n ds i s h) e

theorem docOf_aggregated_nonneg (text : String) :
    ∀ e, 0 ≤ (docOf text).aggregated e :=
  procSentences_aggregated_nonneg _ _ _ _ (fun _ => le_refl 0)

/-! ## Supporting lemmas: the sorted share distribution -/

theorem normalisedOf_perm (text : String) :
    List.Perm (normalisedOf text)
      (keysOrder.map (fun e => (e, (docOf text).aggregated e / totalOf text))) :=
  List.perm_insertionSort _ _

theorem normalisedOf_sorted (text : String) : (normalisedOf text).Sorted blendGE :=
  List.sorted_insertionSort _ _

theorem normalisedOf_length (text : String) : (normalisedOf text).length = 15 := by
  unfold normalisedOf sortDesc
  rw [List.length_insertionSort, List.length_map]
  rfl

theorem normalisedOf_ne_nil (text : String) : normalisedOf text ≠ [] := by
  intro h
  have hl := normalisedOf_length text
  rw [h] at hl
  simp at hl

theorem topOf_mem (text : String) : topOf text ∈ normalisedOf text := by
  unfold topOf
  cases hn : normalisedOf text with
  | nil => exact absurd hn (normalisedOf_ne_nil text)
  | cons a l => simp

theorem le_topOf (text : String) : ∀ x ∈ normalisedOf text, x.2 ≤ (topOf text).2 := by
  intro x hx
  have hs := normalisedOf_sorted text
  unfold topOf
  cases hn : normalisedOf text with
  | nil => rw [hn] at hx; simp at hx
  | cons a l =>
    rw [hn] at hx hs
    rw [List.sorted_cons] at hs
    rcases List.mem_cons.mp hx with rfl | hxl
    · simp
    · simpa using hs.1 x hxl

theorem list_sum_map_div {α : Type} (l : List α) (f : α → ℚ) (c : ℚ) :
    (l.map (fun x => f x / c)).sum = (l.map f).sum / c := by
  induction l with
  | nil => simp
  | cons a l ih => simp [ih, add_div]

theorem mem_le_sum_of_nonneg :
    ∀ l : List ℚ, (∀ x ∈ l, 0 ≤ x) → ∀ x ∈ l, x ≤ l.sum := by
  intro l
  induction l with
  | nil => intro _ x hx; simp at hx
  | cons a t ih =>
    intro h x hx
    rw [List.sum_cons]
    rcases List.mem_cons.mp hx with rfl | hxt
    · have h2 : 0 ≤ t.sum := List.sum_nonneg (fun y hy => h y (List.mem_cons_of_mem _ hy))
      linarith
    · have h3 := ih (fun y hy => h y (List.mem_cons_of_mem _ hy)) x hxt
      have ha := h a (List.mem_cons_self _ _)
      linarith

theorem list_sum_le_length_mul (l : List ℚ) (c : ℚ) (h : ∀ x ∈ l, x ≤ c) :
    l.sum ≤ l.length * c := by
  induction l with
  | nil => simp
  | cons a l ih =>
    simp only [List.sum_cons, List.length_cons]
    have hs := ih (fun x hx => h x (List.mem_cons_of_mem _ hx))
    have ha := h a (List.mem_cons_self _ _)
    push_cast
    nlinarith

theorem sum_normalised_weights (text : String) (h : totalOf text ≠ 0) :
    ((normalisedOf text).map (fun x => x.2)).sum = 1 := by
  have hperm := (normalisedOf_perm text).map (fun x : Emotion × ℚ => x.2)
  rw [hperm.sum_eq, List.map_map]
  have hc : ((fun x : Emotion × ℚ => x.2) ∘
      fun e => (e, (docOf text).aggregated e / totalOf text)) =
      fun e => (docOf text).aggregated e / totalOf text := rfl
  rw [hc, list_sum_map_div]
  exact div_self h

theorem normalised_weights_nonneg (text : String) (h : 0 < totalOf text) :
    ∀ x ∈ normalisedOf text, 0 ≤ x.2 := by
  intro x hx
  rw [(normalisedOf_perm text).mem_iff] at hx
  obtain ⟨e, _, rfl⟩ := List.mem_map.mp hx
  exact div_nonneg (docOf_aggregated_nonneg text e) h.le

/-! ## Supporting lemmas: branch selection of `detectEmotion` -/

theorem detect_blank {text : String} (hb : isBlank text = true) :
    detectEmotion text =
      { emotion := .joy, confidence := 0.5, scores := zeroScores,
        blend := [(.joy, 1)], bodily := 1, total := 0 } := by
  unfold detectEmotion
  rw [if_pos hb]

theorem detect_zero_fields {text : String} (hb : isBlank text = false)
    (h0 : totalOf text = 0) :
    detectEmotion text =
      { emotion := .joy, confidence := 0, scores := (docOf text).aggregated,
        blend := [], bodily := bodilyOf text, total := 0 } := by
  unfold detectEmotion
  rw [if_neg (by simp [hb]), if_pos h0]

theorem detect_pos_fields {text : String} (hb : isBlank text = false)
    (h0 : totalOf text ≠ 0) :
    detectEmotion text =
      { emotion := (topOf text).1, confidence := (topOf text).2,
        scores := (docOf text).aggregated, blend := blendOf text,
        bodily := bodilyOf text, total := totalOf text } := by
  unfold detectEmotion
  rw [if_neg (by simp [hb]), if_neg h0]

/-! ## Claim theorems -/

/-- C9: for every input text with `rawScoreTotal > 0`, the returned
confidence — the dominant emotion's normalised share, i.e. the maximum of the
15 non-negative shares that sum to 1 — lies in the interval `[1/15, 1]`. -/
theorem confidence_bounds (text : String) (h : 0 < (detectEmotion text).total) :
    1/15 ≤ (detectEmotion text).confidence ∧ (detectEmotion text).confidence ≤ 1 := by
  cases hb : isBlank text with
  | true => rw [detect_blank hb] at h; exact absurd h (lt_irrefl 0)
  | false =>
    by_cases h0 : totalOf text = 0
    · rw [detect_zero_fields hb h0] at h; exact absurd h (lt_irrefl 0)
    · have hT : 0 < totalOf text := by rw [detect_pos_fields hb h0] at h; exact h
      rw [detect_pos_fields hb h0]
      dsimp only
      have hsum := sum_normalised_weights text h0
      have hnn := normalised_weights_nonneg text hT
      constructor
      · have hle := list_sum_le_length_mul ((normalisedOf text).map (fun x => x.2))
          (topOf text).2 (by
            intro x hx
            obtain ⟨y, hy, rfl⟩ := List.mem_map.mp hx
            exact le_topOf text y hy)
        rw [hsum, List.length_map, normalisedOf_length] at hle
        push_cast at hle
        linarith
      · have hmem : (topOf text).2 ∈ (normalisedOf text).map (fun x => x.2) :=
          List.mem_map_of_mem _ (topOf_mem text)
        have hb1 : (topOf text).2 ≤ ((normalisedOf text).map (fun x => x.2)).sum :=
          mem_le_sum_of_nonneg _
            (by
              intro x hx
              obtain ⟨y, hy, rfl⟩ := List.mem_map.mp hx
              exact hnn y hy) _ hmem
        rw [hsum] at hb1
        exact hb1

/-- C9 witness: the bounds instantiated at the input `happy`
(confidence 1, total 2). -/
theorem confidence_bounds_witness :
    1/15 ≤ (detectEmotion "happy").confidence ∧
    (detectEmotion "happy").confidence ≤ 1 :=
  confidence_bounds "happy" (by decide)

/-- C4: whenever `rawScoreTotal > 0`, the weights of the returned blend are
non-negative and sum to exactly 1 (in the exact rational semantics; a
fortiori within the claim's `1e-9` tolerance). -/
theorem blend_weights_normalised (text : String)
    (h : 0 < (detectEmotion text).total) :
    (∀ w ∈ (detectEmotion text).blend, 0 ≤ w.2) ∧
    ((detectEmotion text).blend.map (fun w => w.2)).sum = 1 := by
  cases hb : isBlank text with
  | true => rw [detect_blank hb] at h; exact absurd h (lt_irrefl 0)
  | false =>
    by_cases h0 : totalOf text = 0
    · rw [detect_zero_fields hb h0] at h; exact absurd h (lt_irrefl 0)
    · rw [detect_pos_fields hb h0]
      dsimp only
      unfold blendOf
      by_cases hb0 :
          ((aboveOf text).map (fun e => (e.1, e.2 / blendTotalOf text))) = []
      · rw [if_pos hb0]
        refine ⟨?_, by simp⟩
        intro w hw
        rw [List.mem_singleton] at hw
        rw [hw]
        norm_num
      · rw [if_neg hb0]
        have habove : ∀ x ∈ aboveOf text, BLEND_THRESHOLD ≤ x.2 := by
          intro x hx
          exact of_decide_eq_true (List.mem_filter.mp hx).2
        have hne : aboveOf text ≠ [] := by
          intro hnil
          rw [hnil] at hb0
          simp at hb0
        have hT : 0 < blendTotalOf text := by
          unfold blendTotalOf
          cases ha : aboveOf text with
          | nil => exact absurd ha hne
          | cons a l =>
            simp only [List.map_cons, List.sum_cons]
            have h1 : BLEND_THRESHOLD ≤ a.2 := habove a (ha ▸ List.mem_cons_self _ _)
            have h2 : 0 ≤ (l.map (fun e : Emotion × ℚ => e.2)).sum := by
              refine List.sum_nonneg ?_
              intro x hx
              obtain ⟨y, hy, rfl⟩ := List.mem_map.mp hx
              have := habove y (ha ▸ List.mem_cons_of_mem _ hy)
              unfold BLEND_THRESHOLD at this
              linarith
            unfold BLEND_THRESHOLD at h1
            linarith
        constructor
        · intro w hw
          obtain ⟨y, hy, rfl⟩ := List.mem_map.mp hw
          have hy2 := habove y hy
          unfold BLEND_THRESHOLD at hy2
          exact div_nonneg (by linarith) hT.le
        · rw [List.map_map]
          have hc : ((fun w : Emotion × ℚ => w.2) ∘
              fun e : Emotion × ℚ => (e.1, e.2 / blendTotalOf text)) =
              fun e : Emotion × ℚ => e.2 / blendTotalOf text := rfl
          rw [hc, list_sum_map_div]
          exact div_self hT.ne'

/-- C4 witness: the normalisation instantiated at the input `happy`. -/
theorem blend_weights_normalised_witness :
    (∀ w ∈ (detectEmotion "happy").blend, 0 ≤ w.2) ∧
    ((detectEmotion "happy").blend.map (fun w => w.2)).sum = 1 :=
  blend_weights_normalised "happy" (by decide)

/-- C2 counterexample: for the input `not happy` the raw total is positive,
yet the maximum normalised share (the confidence) is below the 0.16
threshold — the threshold excludes every emotion and the fallback guard IS
taken, returning the singleton `[calm, 1]`. -/
theorem blend_guard_taken_not_happy :
    0 < (detectEmotion "not happy").total ∧
    (detectEmotion "not happy").confidence < BLEND_THRESHOLD ∧
    (detectEmotion "not happy").blend = [(Emotion.calm, 1)] :=
  ⟨by decide, by decide, by decide⟩

/-- C2 amended: the 0.16 threshold CAN exclude every emotion while
`rawScoreTotal > 0` (negation spreads weight over 14 opponents, capping the
maximum share at 1/14 < 0.16, e.g. for `not happy`); whenever that happens
the guard returns the singleton blend `[dominant, 1]`. -/
theorem blend_guard_fallback :
    (0 < (detectEmotion "not happy").total ∧
      (detectEmotion "not happy").confidence < BLEND_THRESHOLD) ∧
    (∀ text, 0 < (detectEmotion text).total →
      (detectEmotion text).confidence < BLEND_THRESHOLD →
      (detectEmotion text).blend = [((detectEmotion text).emotion, 1)]) := by
  constructor
  · exact ⟨by decide, by decide⟩
  · intro text h hc
    cases hb : isBlank text with
    | true => rw [detect_blank hb] at h; exact absurd h (lt_irrefl 0)
    | false =>
      by_cases h0 : totalOf text = 0
      · rw [detect_zero_fields hb h0] at h; exact absurd h (lt_irrefl 0)
      · rw [detect_pos_fields hb h0] at hc ⊢
        dsimp only at hc ⊢
        have habv : aboveOf text = [] := by
          unfold aboveOf
          rw [List.filter_eq_nil_iff]
          intro a ha
          have hle := le_topOf text a ha
          simp only [decide_eq_true_eq]
          intro hge
          exact absurd hc (not_lt.mpr (le_trans hge hle))
        unfold blendOf
        rw [habv]
        simp

/-- C2 witness: the fallback equation instantiated at `not happy`. -/
theorem blend_guard_fallback_witness :
    (detectEmotion "not happy").blend = [((detectEmotion "not happy").emotion, 1)] :=
  blend_guard_fallback.2 "not happy" (by decide) (by decide)

/-- C3 counterexample: for the non-blank, keyword-free input `xyzzy` the
result has confidence 0 and an EMPTY blend — not a blend collapsed to a
singleton dominant entry as the claim states. -/
theorem no_signal_blend_not_singleton :
    isBlank "xyzzy" = false ∧ (detectEmotion "xyzzy").total = 0 ∧
    (detectEmotion "xyzzy").confidence = 0 ∧ (detectEmotion "xyzzy").blend = [] ∧
    (detectEmotion "xyzzy").blend.length ≠ 1 :=
  ⟨by decide, by decide, by decide, by decide, by decide⟩

/-- C3 amended: a non-blank input with `rawScoreTotal = 0` yields confidence
0 and the EMPTY blend (the singleton-collapse guard lives only in the
positive-total path), distinguished from the empty-input idle result, which
has confidence 0.5 and blend `[joy, 1]`. -/
theorem no_signal_result :
    (∀ text, isBlank text = false → (detectEmotion text).total = 0 →
      (detectEmotion text).confidence = 0 ∧ (detectEmotion text).blend = []) ∧
    (detectEmotion "").confidence = 1/2 ∧
    (detectEmotion "").blend = [(Emotion.joy, 1)] := by
  refine ⟨?_, by decide, by decide⟩
  intro text hb h0
  by_cases ht : totalOf text = 0
  · rw [detect_zero_fields hb ht]
    exact ⟨rfl, rfl⟩
  · rw [detect_pos_fields hb ht] at h0
    exact absurd h0 ht

/-- C3 witness: the no-signal shape instantiated at `xyzzy`. -/
theorem no_signal_result_witness :
    (detectEmotion "xyzzy").confidence = 0 ∧ (detectEmotion "xyzzy").blend = [] :=
  no_signal_result.1 "xyzzy" (by decide) (by decide)

/-- C5 counterexample: `can't` is in `NEGATION_WORDS`, but for the input
can't-happy (an input consisting of a negation word immediately followed by
the strong joy keyword `happy`) the joy raw share is NOT lower than for
`happy` alone: the tokeniser splits the contraction at the apostrophe into
`can`/`t`, neither of which is a negation word, so negation never fires and
the scores are identical. -/
theorem negation_contraction_dead_entry :
    NEGATION_WORDS.contains (contraction "can" "t") = true ∧
    rawShare (detectEmotion (contraction "can" "t" ++ " happy")) Emotion.joy
      = rawShare (detectEmotion "happy") Emotion.joy ∧
    ¬(rawShare (detectEmotion (contraction "can" "t" ++ " happy")) Emotion.joy
      < rawShare (detectEmotion "happy") Emotion.joy) :=
  ⟨by decide, by decide, by decide⟩

/-- C5 amended: for every negation word that survives tokenisation as a
single token (all the apostrophe-free entries of `NEGATION_WORDS`),
prefixing it to the strong joy keyword `happy` strictly lowers joy's raw
share and strictly raises another emotion's (calm's) raw share; the
contraction entries (can't, won't, …) are dead because the `\w+` tokeniser
splits them. -/
theorem negation_property_tokenizable :
    ∀ neg ∈ NEGATION_WORDS.filter (fun w => w.data.all Char.isAlpha),
      rawShare (detectEmotion (neg ++ " happy")) Emotion.joy
        < rawShare (detectEmotion "happy") Emotion.joy ∧
      rawShare (detectEmotion "happy") Emotion.calm
        < rawShare (detectEmotion (neg ++ " happy")) Emotion.calm := by
  decide

/-- C5 witness: the negation property instantiated at the claim's own
example `not happy`. -/
theorem negation_property_tokenizable_witness :
    rawShare (detectEmotion "not happy") Emotion.joy
      < rawShare (detectEmotion "happy") Emotion.joy ∧
    rawShare (detectEmotion "happy") Emotion.calm
      < rawShare (detectEmotion "not happy") Emotion.calm :=
  negation_property_tokenizable "not" (by decide)

/-- C6: for the two-sentence input angry-then-calm, the calm share of the
final blend strictly exceeds the calm share of the reversed order, and the
position weight of the later sentence (3/2 for the second of two) exceeds
that of the first (1), per `positionWeight = 1 + sentenceIndex/sentenceCount`. -/
theorem recency_calm_blend :
    blendWeight (detectEmotion "I am furious. I feel calm.") Emotion.calm
      > blendWeight (detectEmotion "I feel calm. I am furious.") Emotion.calm ∧
    positionWeight 1 2 = 3/2 ∧ positionWeight 0 2 = 1 :=
  ⟨by decide, by decide, by decide⟩

/-- C1 counterexample: a single `spawnBlend` call on an empty pool with
blend `[(joy, 1)]` and `totalCount = 701` leaves 701 live particles —
strictly more than `MAX_PARTICLES = 700` (the eviction frees room for
`totalCount` particles, but the inserted batch is `max(1, round(…))` per
entry and is not bounded by `totalCount`). -/
theorem spawnBlend_capacity_exceeded :
    MAX_PARTICLES < (spawnBlend [] [("joy", 1)] 701).length ∧
    (spawnBlend [] [("joy", 1)] 701).length = 701 :=
  ⟨by decide, by decide⟩

/-- C1 amended: eviction is oldest-inserted-first (a drop from the front of
the pool, FIFO), and the population stays within `MAX_PARTICLES` provided
`totalCount ≤ MAX_PARTICLES` and the inserted batch
`Σ max(1, round(totalCount×weight))` does not exceed `totalCount`; without
those provisos the capacity can be exceeded. -/
theorem spawnBlend_capacity_amended :
    (∀ (ps : List String) (blend : List (String × ℚ)) (t : ℕ),
      MAX_PARTICLES < ps.length + t →
      spawnBlend ps blend t
        = ps.drop (ps.length + t - MAX_PARTICLES) ++ spawnInserted blend t) ∧
    (∀ (ps : List String) (blend : List (String × ℚ)) (t : ℕ),
      ps.length ≤ MAX_PARTICLES → t ≤ MAX_PARTICLES →
      (spawnInserted blend t).length ≤ t →
      (spawnBlend ps blend t).length ≤ MAX_PARTICLES) := by
  constructor
  · intro ps blend t h
    show (if MAX_PARTICLES < ps.length + t then
        ps.drop (ps.length + t - MAX_PARTICLES) else ps) ++ spawnInserted blend t
      = ps.drop (ps.length + t - MAX_PARTICLES) ++ spawnInserted blend t
    rw [if_pos h]
  · intro ps blend t hps ht hins
    show ((if MAX_PARTICLES < ps.length + t then
        ps.drop (ps.length + t - MAX_PARTICLES) else ps) ++
          spawnInserted blend t).length ≤ MAX_PARTICLES
    by_cases hc : MAX_PARTICLES < ps.length + t
    · rw [if_pos hc, List.length_append, List.length_drop]
      omega
    · rw [if_neg hc, List.length_append]
      push_neg at hc
      omega

/-- C1 witness: a classifier-shaped call (two entries of weight 1/2,
totalCount 160) on an empty pool stays within capacity. -/
theorem spawnBlend_capacity_amended_witness :
    (spawnBlend [] [("joy", 0.5), ("calm", 0.5)] 160).length ≤ MAX_PARTICLES :=
  spawnBlend_capacity_amended.2 [] [("joy", 0.5), ("calm", 0.5)] 160
    (by decide) (by decide) (by decide)

/-- C7 counterexample: after three placements the ghost point 0 is live with
age 0, and a fourth placement at capacity 3 evicts it — it leaves the active
set although its age (0) never reached the 600-tick lifetime, refuting
`never before` under arbitrary `place()` sequences. -/
theorem attractor_evicted_before_expiry :
    (∃ p ∈ threePoints, p.pid = 0 ∧ p.age = 0) ∧
    (∀ p ∈ fourPoints, p.pid ≠ 0) :=
  ⟨by decide, by decide⟩

/-- C7 amended: a live field point survives a tick (with its age
incremented) iff its new age is still below `ATTRACTOR_LIFE = 600` — so
expiry removes it exactly on the tick its age reaches 600 — while `place()`
below capacity evicts nothing and `place()` at capacity additionally evicts
the single oldest point (FIFO), which can remove a point before its age
reaches the lifetime. -/
theorem attractor_expiry_amended :
    (∀ (s : List APoint) (p : APoint), p ∈ s →
      ({ p with age := p.age + 1 } ∈ tickAttractors s ↔
        p.age + 1 < ATTRACTOR_LIFE)) ∧
    (∀ (s : List APoint) (pid : ℕ) (x y : ℚ) (k : AKind),
      s.length < MAX_ATTRACTORS →
      placeAttractor s pid x y k = s ++
        [{ pid := pid, x := x, y := y, kind := k,
           radius := ATTRACTOR_R, strength := ATTRACTOR_STR, age := 0 }]) ∧
    (∀ (s : List APoint) (pid : ℕ) (x y : ℚ) (k : AKind),
      MAX_ATTRACTORS ≤ s.length →
      placeAttractor s pid x y k = s.drop 1 ++
        [{ pid := pid, x := x, y := y, kind := k,
           radius := ATTRACTOR_R, strength := ATTRACTOR_STR, age := 0 }]) := by
  refine ⟨?_, ?_, ?_⟩
  · intro s p hp
    unfold tickAttractors
    constructor
    · intro hmem
      have h2 := (List.mem_filter.mp hmem).2
      simpa using h2
    · intro hlt
      refine List.mem_filter.mpr ⟨List.mem_map_of_mem _ hp, ?_⟩
      simpa using hlt
  · intro s pid x y k h
    show (if MAX_ATTRACTORS ≤ s.length then s.drop 1 else s) ++ _ = _
    rw [if_neg (by omega)]
  · intro s pid x y k h
    show (if MAX_ATTRACTORS ≤ s.length then s.drop 1 else s) ++ _ = _
    rw [if_pos h]

/-- C7 witness: a point of age 599 is removed by the tick on which its age
reaches 600, a point of age 5 survives that tick, and a placement on an
empty set evicts nothing. -/
theorem attractor_expiry_amended_witness :
    ¬({ nearDeathPoint with age := nearDeathPoint.age + 1 }
        ∈ tickAttractors [nearDeathPoint]) ∧
    ({ youngPoint with age := youngPoint.age + 1 } ∈ tickAttractors [youngPoint]) ∧
    placeAttractor ([] : List APoint) 0 0 0 .attract =
      [{ pid := 0, x := 0, y := 0, kind := .attract,
         radius := ATTRACTOR_R, strength := ATTRACTOR_STR, age := 0 }] := by
  refine ⟨?_, ?_, ?_⟩
  · intro hmem
    have h2 := (attractor_expiry_amended.1 [nearDeathPoint] nearDeathPoint
      (by decide)).mp hmem
    exact absurd h2 (by decide)
  · exact (attractor_expiry_amended.1 [youngPoint] youngPoint (by decide)).mpr
      (by decide)
  · exact attractor_expiry_amended.2.1 [] 0 0 0 .attract (by decide)

/-- C8 counterexample: `applyForce` on a dead particle is not a no-op — it
does not raise an error, but it still accumulates into the pending
acceleration: `ax` changes from 0 to 1. -/
theorem applyForce_dead_not_noop :
    deadParticle.alive = false ∧
    (applyForce deadParticle 1 0).ax ≠ deadParticle.ax := by
  refine ⟨rfl, ?_⟩
  show deadParticle.ax + 1 ≠ deadParticle.ax
  show (0 : ℝ) + 1 ≠ 0
  norm_num

/-- C8 amended: `applyForce` never errors (it is total) and, for every
particle — dead or alive — it adds `(fx, fy)` to the pending acceleration
`(ax, ay)` and leaves every other field unchanged; there is no liveness
guard in the source. -/
theorem applyForce_fields (p : Particle) (fx fy : ℝ) :
    (applyForce p fx fy).ax = p.ax + fx ∧ (applyForce p fx fy).ay = p.ay + fy ∧
    (applyForce p fx fy).x = p.x ∧ (applyForce p fx fy).y = p.y ∧
    (applyForce p fx fy).vx = p.vx ∧ (applyForce p fx fy).vy = p.vy ∧
    (applyForce p fx fy).age = p.age ∧ (applyForce p fx fy).alive = p.alive ∧
    (applyForce p fx fy).trail = p.trail ∧
    (applyForce p fx fy).lifespan = p.lifespan :=
  ⟨rfl, rfl, rfl, rfl, rfl, rfl, rfl, rfl, rfl, rfl⟩

/-- C10: the `|| 1` guard makes every radial/tangential denominator total:
`distGuard` (the embedding of `Math.sqrt(dx*dx+dy*dy) || 1`, which every
dividing force model — joy, sadness, calm, curiosity, gratitude, shame,
courage, disconnected, powerless, tender — and the attractor force use as
their only denominator) is strictly positive for all inputs, so no force
computation divides by zero. -/
theorem distGuard_pos (dx dy : ℝ) : 0 < distGuard dx dy := by
  show 0 < if Real.sqrt (dx * dx + dy * dy) = 0 then 1
    else Real.sqrt (dx * dx + dy * dy)
  split
  · norm_num
  · next h => exact lt_of_le_of_ne (Real.sqrt_nonneg _) (Ne.symm h)

end Emotropy
